import Mathlib

/-!
Shallow embedding of the GenAI-Apps repository (Resume-Builder and
Nutrition-Planner Streamlit apps) for specification checking.

Text is modelled as `List Char`; byte buffers as `List Nat` with every
entry `< 256`.  The external generative-text service is modelled as a
parameter `gen : List Char → Option (List Char)` (`None` = the call
failed or produced an empty body, mirroring `_generate_content`
returning `None`).  Functions that may call the service return a pair
whose second component counts how many times the service was invoked,
so that "no external call made" claims can be stated.
-/

namespace GenAIApps

/-- Characters treated as whitespace by Python's `str.strip` / regex `\s`
(ASCII range). -/
def isPySpace (c : Char) : Bool :=
  c = ' ' || c = '\t' || c = '\n' || c = '\r' || c = '\x0b' || c = '\x0c'

/-- Python `str.strip()`: remove leading and trailing whitespace. -/
def pyStrip (cs : List Char) : List Char :=
  ((cs.dropWhile isPySpace).reverse.dropWhile isPySpace).reverse

/-- `ResumeBuilder._sanitize_input`: `return "" if not text else text.strip()`. -/
def sanitize_input (text : List Char) : List Char :=
  if text = [] then [] else pyStrip text

/-- `MAX_SKILLS = 10`. -/
def MAX_SKILLS : Nat := 10

/-- The per-line matcher of `extract_skills`:
`re.match(r'^\d+\.\s*(.+)$', line.strip())`, returning `match.group(1)`.
A match needs one or more digits, a literal period, any amount of
whitespace, then at least one character; `.` does not match a newline,
so a group containing `'\n'` is impossible (after `strip` a trailing
newline is gone, and an interior one makes the anchored match fail). -/
def matchNumbered (line : List Char) : Option (List Char) :=
  if (pyStrip line).takeWhile Char.isDigit = [] then none
  else
    match (pyStrip line).dropWhile Char.isDigit with
    | '.' :: rest2 =>
      if rest2.dropWhile isPySpace = [] ∨ (rest2.dropWhile isPySpace).contains '\n'
      then none
      else some (rest2.dropWhile isPySpace)
    | _ => none

/-- One iteration of the parsing loop in `extract_skills`
(`if match and len(skills) < MAX_SKILLS: skills.append(match.group(1))`). -/
def parseStep (skills : List (List Char)) (line : List Char) : List (List Char) :=
  match matchNumbered line with
  | some g => if skills.length < MAX_SKILLS then skills ++ [g] else skills
  | none => skills

/-- The parsing phase of `extract_skills`: split the model response on
`'\n'` and run the loop over the lines. -/
def parseSkills (result : List Char) : List (List Char) :=
  (result.splitOn '\n').foldl parseStep []

/-- The f-string prompt built by `extract_skills` (with `MAX_SKILLS`
interpolated) around the sanitized job description. -/
def extract_skills_prompt (sanitized_jd : List Char) : List Char :=
  ("\n        Analyze the following job description and extract exactly the top " ++ toString MAX_SKILLS ++ " most critical skills \n        that candidates must possess, ordered by importance. Focus on:\n        \n        1. Technical/hard skills specific to the role\n        2. Industry-specific knowledge\n        3. Key soft skills mentioned\n        4. Tools/technologies required\n        \n        Present ONLY as a numbered list (1-" ++ toString MAX_SKILLS ++ ") without additional commentary.\n        \n        Job Description:\n        ").data
  ++ sanitized_jd ++ "\n        ".data

/-- `ResumeBuilder.extract_skills`.  `gen` models
`_generate_content` (the Gemini call); the `Nat` counts how many times
the external service was invoked.  A `none` result models Python's
`None` return (empty input, failed generation, or no parseable skill). -/
def extract_skills (gen : List Char → Option (List Char))
    (job_description : List Char) : Option (List (List Char)) × Nat :=
  if sanitize_input job_description = [] then (none, 0)
  else
    match gen (extract_skills_prompt (sanitize_input job_description)) with
    | none => (none, 1)
    | some result =>
      (if parseSkills result = [] then none else some (parseSkills result), 1)

/-- Python `", ".join(selected_skills)`. -/
def joinComma (skills : List (List Char)) : List Char :=
  List.intercalate (", ".data) skills

/-- The f-string prompt built by `generate_custom_resume`. -/
def resume_prompt (resume job_description : List Char)
    (selected_skills : List (List Char)) : List Char :=
  ("\n        Role: Expert Resume Writer specializing in ATS-optimized resumes\n        \n        Task: Transform this resume to perfectly match the target job by emphasizing these " ++ toString selected_skills.length ++ " key skills:\n        ").data
  ++ joinComma selected_skills
  ++ ("\n        \n        Guidelines:\n        1. STRUCTURE: Use standard resume sections (Summary, Skills, Experience, Education)\n        2. RELEVANCE: Prioritize experiences demonstrating selected skills\n        3. QUANTIFICATION: Add metrics to achievements where possible\n        4. KEYWORDS: Mirror language from the job description\n        5. CONCISENESS: Keep to 1-2 pages worth of content\n        6. FORMATTING: Use clean, professional formatting with bullet points\n        \n        Original Resume:\n        ").data
  ++ sanitize_input resume
  ++ ("\n        \n        Target Job Description:\n        ").data
  ++ sanitize_input job_description
  ++ ("\n        \n        Generate the optimized resume following these exact sections:\n        \n        [Professional Summary]\n        - 3-4 sentence career overview highlighting top qualifications\n        \n        [Key Skills]\n        - 6-8 bullet points mixing selected skills and job keywords\n        \n        [Professional Experience]\n        - For each role:\n          - Company, Job Title, Dates\n          - 3-5 bullet points emphasizing relevant achievements\n          - Start bullets with strong action verbs\n          - Include metrics (%, $, numbers) where possible\n        \n        [Education]\n        - Degree, Institution, Year\n        - Relevant coursework if entry-level\n        \n        [Optional Sections]\n        - Certifications, Projects, or Technical Skills if space allows\n        ").data

/-- `ResumeBuilder.generate_custom_resume`:
`if not all([resume, job_description, selected_skills]): return None`
(no external call), else one call to the service with the resume prompt. -/
def generate_custom_resume (gen : List Char → Option (List Char))
    (resume job_description : List Char)
    (selected_skills : List (List Char)) : Option (List Char) × Nat :=
  if resume = [] ∨ job_description = [] ∨ selected_skills = [] then (none, 0)
  else (gen (resume_prompt resume job_description selected_skills), 1)

/-- The f-string prompt built by `generate_cover_letter`. -/
def cover_letter_prompt (resume job_description : List Char)
    (selected_skills : List (List Char))
    (company_name recipient_name : List Char) : List Char :=
  ("\n        Role: Expert Cover Letter Writer specializing in ATS-optimized cover letters\n        \n        Task: Craft a compelling cover letter to perfectly match the target job by emphasizing these " ++ toString selected_skills.length ++ " key skills:\n        ").data
  ++ joinComma selected_skills
  ++ ("\n        \n        Guidelines:\n        1. STRUCTURE: Use standard cover letter format (Introduction, Body, Conclusion)\n        2. RELEVANCE: Prioritize experiences demonstrating selected skills\n        3. QUANTIFICATION: Add metrics to achievements where possible\n        4. KEYWORDS: Mirror language from the job description\n        5. CONCISENESS: Keep to 1 page worth of content\n        6. FORMATTING: Use clean, professional formatting with paragraphs\n        7. PERSONALIZATION: Address the recipient by name and mention the company name\n        \n        Original Resume:\n        ").data
  ++ sanitize_input resume
  ++ ("\n        \n        Target Job Description:\n        ").data
  ++ sanitize_input job_description
  ++ ("\n        \n        Company Name:\n        ").data
  ++ sanitize_input company_name
  ++ ("\n        \n        Recipient Name:\n        ").data
  ++ sanitize_input recipient_name
  ++ ("\n        \n        Generate the optimized cover letter following these exact sections:\n        \n        [Introduction]\n        - Express enthusiasm for the role and company\n        - Briefly introduce yourself and highlight your key qualifications\n        \n        [Body]\n        - 2-3 paragraphs detailing relevant experiences and achievements\n        - Emphasize how your skills align with the job requirements\n        - Use specific examples and metrics to showcase your impact\n        \n        [Conclusion]\n        - Reiterate your interest and enthusiasm\n        - Thank the recipient for their time and consideration\n        - Express your eagerness to discuss your application further\n        \n        ").data

/-- `ResumeBuilder.generate_cover_letter`: rejects when any of the five
inputs is empty (no external call), else one call to the service. -/
def generate_cover_letter (gen : List Char → Option (List Char))
    (resume job_description : List Char)
    (selected_skills : List (List Char))
    (company_name recipient_name : List Char) : Option (List Char) × Nat :=
  if resume = [] ∨ job_description = [] ∨ selected_skills = [] ∨
      company_name = [] ∨ recipient_name = [] then (none, 0)
  else (gen (cover_letter_prompt resume job_description selected_skills
    company_name recipient_name), 1)

/-- The encoding step of `ResumeBuilder.create_pdf`:
`resume_text.encode('latin-1', 'replace').decode('latin-1')`.
Characters with a code point above 255 cannot be encoded in latin-1 and
the `'replace'` error handler substitutes the byte `b'?'`; every other
character round-trips unchanged. -/
def latin1Replace (text : List Char) : List Char :=
  text.map (fun c => if c.toNat < 256 then c else '?')

/-- The sequence of lines `create_pdf` feeds to `pdf.multi_cell`
(`for line in text.split('\n')`), after the latin-1 replacement. -/
def create_pdf_text (resume_text : List Char) : List (List Char) :=
  (latin1Replace resume_text).splitOn '\n'

/-- Python's strict `str.encode('latin-1')` (no error handler): yields
the code-point bytes when every character fits in one byte; a character
above U+00FF raises `UnicodeEncodeError`, modelled as `none`. -/
def latin1StrictEncode (text : List Char) : Option (List Nat) :=
  if text.all (fun c => c.toNat < 256) then some (text.map Char.toNat) else none

/-- The text-encoding step of the Nutrition-Planner export
(`Nutrition-Planner/main.py`, the `pdf.multi_cell(0, 10, meal_plan_text)`
and `pdf.output(dest="S").encode("latin-1")` block): the meal-plan text
is written into the document, whose serialized string embeds that text,
and the result is encoded with strict latin-1 — no `'replace'` handler
and no enclosing try/except.  Modelled on the written text itself: no
replacement occurs, and an unencodable character makes the export raise
(`none`) instead of producing a byte buffer. -/
def nutrition_pdf_encode (meal_plan_text : List Char) : Option (List Nat) :=
  latin1StrictEncode meal_plan_text

/-- The standard base64 alphabet used by Python's `base64.b64encode`. -/
def b64Alphabet : List Char :=
  "ABCDEFGHIJKLMNOPQRSTUVWXYZabcdefghijklmnopqrstuvwxyz0123456789+/".data

/-- Character for a 6-bit value. -/
def sextetChar (n : Nat) : Char := b64Alphabet.getD n 'A'

/-- Inverse lookup in the base64 alphabet. -/
def sextetVal (c : Char) : Option Nat := b64Alphabet.findIdx? (fun x => x = c)

/-- `base64.b64encode` on a byte buffer (bytes as `Nat`s below 256):
groups of three bytes become four alphabet characters; a final group of
one or two bytes is padded with `'='`. -/
def b64encode : List Nat → List Char
  | [] => []
  | [a] => [sextetChar (a / 4), sextetChar (a % 4 * 16), '=', '=']
  | [a, b] => [sextetChar (a / 4), sextetChar (a % 4 * 16 + b / 16),
      sextetChar (b % 16 * 4), '=']
  | a :: b :: c :: rest =>
      sextetChar (a / 4) :: sextetChar (a % 4 * 16 + b / 16) ::
      sextetChar (b % 16 * 4 + c / 64) :: sextetChar (c % 64) :: b64encode rest

/-- `base64.b64decode` (strict): four characters decode to three bytes,
with `'='` padding allowed only at the very end. -/
def b64decode : List Char → Option (List Nat)
  | [] => some []
  | c1 :: c2 :: c3 :: c4 :: rest =>
    match sextetVal c1, sextetVal c2 with
    | some v1, some v2 =>
      if c3 = '=' then
        if c4 = '=' ∧ rest = [] ∧ v2 % 16 = 0 then some [v1 * 4 + v2 / 16] else none
      else
        match sextetVal c3 with
        | some v3 =>
          if c4 = '=' then
            if rest = [] ∧ v3 % 4 = 0 then
              some [v1 * 4 + v2 / 16, v2 % 16 * 16 + v3 / 4]
            else none
          else
            match sextetVal c4 with
            | some v4 =>
              (b64decode rest).map
                (fun bs => (v1 * 4 + v2 / 16) :: (v2 % 16 * 16 + v3 / 4) ::
                  (v3 % 4 * 64 + v4) :: bs)
            | none => none
        | none => none
    | _, _ => none
  | _ => none

/-- `create_download_link(file_data, filename)`: wraps the base64
encoding of the byte buffer in an HTML data-URI anchor.  Identical in
`Resume-Builder/main.py` and `Nutrition-Planner/main.py`. -/
def create_download_link (file_data : List Nat) (filename : List Char) : List Char :=
  "<a href=\"data:application/octet-stream;base64,".data
  ++ b64encode file_data
  ++ "\" download=\"".data ++ filename
  ++ "\">Download ".data ++ filename ++ "</a>".data

/-- The `st.session_state` fields used by the resume-builder workflow in
`main_ui` (initialised to `skills = []`, flags `False`).  Python stores
`None` in `skills` after a failed extraction; since every read of
`skills` is a truthiness test (`if st.session_state.skills:`), `None`
is modelled by the equally falsy `[]`. -/
structure SessionState where
  skills : List (List Char)
  resume_generated : Bool
  cover_letter_generated : Bool
  custom_resume : Option (List Char)
  custom_cover_letter : Option (List Char)
  selected_skills : List (List Char)

/-- The initial session state set up at the top of `main_ui`. -/
def initialState : SessionState :=
  { skills := [], resume_generated := false, cover_letter_generated := false,
    custom_resume := none, custom_cover_letter := none, selected_skills := [] }

/-- The "Analyze Job Requirements" button handler of the resume tab:
warns and leaves the state unchanged when either text area is empty,
otherwise stores `extract_skills`' result in `st.session_state.skills`
and, on success, resets `resume_generated` to `False`. -/
def analyzeClick (gen : List Char → Option (List Char))
    (resume_text job_description : List Char) (s : SessionState) : SessionState :=
  if resume_text = [] ∨ job_description = [] then s
  else
    match (extract_skills gen job_description).1 with
    | none => { s with skills := [] }
    | some sk => { s with skills := sk, resume_generated := false }

/-- The skill checkboxes of Step 2: the local `selected_skills` list is
rebuilt on every run from the current `st.session_state.skills`,
keeping the skills whose checkbox (indexed by position) is checked. -/
def selectedFrom (checks : Nat → Bool) (skills : List (List Char)) : List (List Char) :=
  (skills.enum.filter (fun p => checks p.1)).map Prod.snd

/-- The "Generate Tailored Resume" button handler.  Returns the new
state, whether the `< 3` warning was shown, and how many times the
document synthesizer (`generate_custom_resume`) was invoked. -/
def generateResumeClick (gen : List Char → Option (List Char))
    (resume_text job_description : List Char)
    (selected_skills : List (List Char)) (s : SessionState) :
    SessionState × Bool × Nat :=
  if selected_skills.length < 3 then (s, true, 0)
  else
    match (generate_custom_resume gen resume_text job_description selected_skills).1 with
    | some custom_resume =>
      ({ s with
          custom_resume := some custom_resume
          resume_generated := true
          selected_skills := selected_skills }, false, 1)
    | none => (s, false, 1)

/-- The "Generate Tailored Cover Letter" button handler (cover-letter
tab), with the same `< 3` guard. -/
def generateCoverLetterClick (gen : List Char → Option (List Char))
    (resume_text job_description : List Char)
    (selected_skills : List (List Char))
    (company_name recipient_name : List Char) (s : SessionState) :
    SessionState × Bool × Nat :=
  if selected_skills.length < 3 then (s, true, 0)
  else
    match (generate_cover_letter gen resume_text job_description selected_skills
        company_name recipient_name).1 with
    | some custom_cover_letter =>
      ({ s with
          custom_cover_letter := some custom_cover_letter
          cover_letter_generated := true
          selected_skills := selected_skills }, false, 1)
    | none => (s, false, 1)

/-- Rendering of one numbered item `"<int>. <text>"`: a nonempty digit
string, a period, a single space, then the text. -/
def renderItem (p : List Char × List Char) : List Char :=
  p.1 ++ '.' :: ' ' :: p.2

/-- Well-formedness of a numbered item `(digits, text)`: the digit
string is a nonempty run of decimal digits, and the text is nonempty,
newline-free and has no leading or trailing whitespace (so the parser
reproduces it verbatim). -/
def goodItem (p : List Char × List Char) : Prop :=
  p.1 ≠ [] ∧ (∀ c ∈ p.1, c.isDigit = true) ∧
  p.2 ≠ [] ∧ '\n' ∉ p.2 ∧
  p.2.dropWhile isPySpace = p.2 ∧ p.2.reverse.dropWhile isPySpace = p.2.reverse

instance (p : List Char × List Char) : Decidable (goodItem p) := by
  unfold goodItem; infer_instance

/-- The acceptance pattern of the extraction regex, written out as in
the specification: after stripping, the line decomposes into a leading
nonempty run of digits, a period, optional whitespace, then a nonempty
remainder which is the skill text. -/
def numberedPattern (line skill : List Char) : Prop :=
  ∃ ds rest, ds ≠ [] ∧ (∀ c ∈ ds, c.isDigit = true) ∧
    pyStrip line = ds ++ '.' :: rest ∧
    skill = rest.dropWhile isPySpace ∧ skill ≠ [] ∧ '\n' ∉ skill

/-- Concrete numbered items used to exhibit the extraction behaviour on
an eleven-line model response. -/
def sampleItems : List (List Char × List Char) :=
  [("1".data, "Python".data), ("2".data, "SQL".data), ("3".data, "AWS".data),
   ("4".data, "Docker".data), ("5".data, "Kubernetes".data),
   ("6".data, "Linux".data), ("7".data, "Git".data), ("8".data, "Java".data),
   ("9".data, "Go".data), ("10".data, "Rust".data), ("11".data, "Scala".data)]

/-- A session state holding data from an earlier successful generation,
used to exhibit the reset behaviour of a re-analysis. -/
def priorState : SessionState :=
  { skills := ["Old skill".data], resume_generated := true,
    cover_letter_generated := true, custom_resume := some ("old resume".data),
    custom_cover_letter := some ("old letter".data),
    selected_skills := ["Old skill".data] }

/-! ### Helper lemmas -/

lemma isPySpace_eq_false_of_isDigit {c : Char} (h : c.isDigit = true) :
    isPySpace c = false := by
  cases hsp : isPySpace c
  · rfl
  · exfalso
    simp only [isPySpace, Bool.or_eq_true, decide_eq_true_eq] at hsp
    rcases hsp with ((((h1 | h1) | h1) | h1) | h1) | h1 <;> subst h1 <;>
      exact absurd h (by decide)

lemma newline_not_digit {c : Char} (h : c.isDigit = true) : c ≠ '\n' := by
  intro h1; subst h1; exact absurd h (by decide)

lemma takeWhile_append_all {p : Char → Bool} :
    ∀ (l₁ : List Char) {b : Char} (l₂ : List Char),
      (∀ a ∈ l₁, p a = true) → p b = false →
      (l₁ ++ b :: l₂).takeWhile p = l₁
  | [], b, l₂, _, hb => by simp [List.takeWhile_cons, hb]
  | a :: t, b, l₂, h, hb => by
    simp only [List.cons_append, List.takeWhile_cons,
      h a (List.mem_cons_self a t), if_true,
      takeWhile_append_all t l₂ (fun x hx => h x (List.mem_cons_of_mem _ hx)) hb]

lemma dropWhile_append_all {p : Char → Bool} :
    ∀ (l₁ : List Char) {b : Char} (l₂ : List Char),
      (∀ a ∈ l₁, p a = true) → p b = false →
      (l₁ ++ b :: l₂).dropWhile p = b :: l₂
  | [], b, l₂, _, hb => by simp [List.dropWhile_cons, hb]
  | a :: t, b, l₂, h, hb => by
    simp only [List.cons_append, List.dropWhile_cons,
      h a (List.mem_cons_self a t), if_true,
      dropWhile_append_all t l₂ (fun x hx => h x (List.mem_cons_of_mem _ hx)) hb]

lemma dropWhile_eq_self_of_head {p : Char → Bool} {l : List Char}
    (h : ∀ c r, l = c :: r → p c = false) : l.dropWhile p = l := by
  cases l with
  | nil => rfl
  | cons c r => simp [List.dropWhile_cons, h c r rfl]

lemma head_false_of_dropWhile_eq_self {p : Char → Bool} {c : Char} {r : List Char}
    (h : (c :: r).dropWhile p = c :: r) : p c = false := by
  cases hc : p c
  · rfl
  · exfalso
    simp only [List.dropWhile_cons, hc, if_true] at h
    have := (List.dropWhile_suffix (l := r) p).length_le
    rw [h] at this
    simp at this

lemma contains_eq_false_of_not_mem {c : Char} {l : List Char} (h : c ∉ l) :
    l.contains c = false := by
  cases hcon : l.contains c
  · rfl
  · exact absurd (List.elem_iff.mp hcon) h

lemma pyStrip_eq_self {l : List Char} (h1 : l.dropWhile isPySpace = l)
    (h2 : l.reverse.dropWhile isPySpace = l.reverse) : pyStrip l = l := by
  unfold pyStrip
  rw [h1, h2, List.reverse_reverse]

lemma dropWhile_reverse_append {l₁ l₂ : List Char} {c : Char} {r : List Char}
    (hrev : l₂.reverse = c :: r) (hc : isPySpace c = false) :
    ((l₁ ++ l₂).reverse).dropWhile isPySpace = (l₁ ++ l₂).reverse := by
  rw [List.reverse_append, hrev, List.cons_append, List.dropWhile_cons, hc]
  simp

/-- Stripping is the identity on a rendered well-formed item. -/
lemma pyStrip_renderItem {p : List Char × List Char} (hp : goodItem p) :
    pyStrip (renderItem p) = renderItem p := by
  obtain ⟨p1, p2⟩ := p
  obtain ⟨hd, hdig, ht, -, -, htr⟩ := hp
  obtain ⟨c, r, hrev⟩ : ∃ c r, p2.reverse = c :: r := by
    cases h2 : p2.reverse with
    | nil => exact absurd (by simpa using congrArg List.reverse h2) ht
    | cons c r => exact ⟨c, r, rfl⟩
  rw [hrev] at htr
  have hcfalse : isPySpace c = false := head_false_of_dropWhile_eq_self htr
  apply pyStrip_eq_self
  · apply dropWhile_eq_self_of_head
    intro c' r' hcr
    cases hp1 : p1 with
    | nil => exact absurd hp1 hd
    | cons d ds =>
      subst hp1
      simp only [renderItem, List.cons_append, List.cons.injEq] at hcr
      rw [← hcr.1]
      exact isPySpace_eq_false_of_isDigit (hdig d (List.mem_cons_self d ds))
  · have hshape : renderItem (p1, p2) = (p1 ++ ['.', ' ']) ++ p2 := by
      simp [renderItem]
    rw [hshape]
    exact dropWhile_reverse_append hrev hcfalse

/-- The extraction regex accepts each rendered well-formed item and
returns its text verbatim. -/
lemma matchNumbered_renderItem {p : List Char × List Char} (hp : goodItem p) :
    matchNumbered (renderItem p) = some p.2 := by
  have hstrip := pyStrip_renderItem hp
  obtain ⟨p1, p2⟩ := p
  obtain ⟨hd, hdig, ht, hnl, hlead, -⟩ := hp
  unfold matchNumbered
  rw [hstrip]
  show (if (renderItem (p1, p2)).takeWhile Char.isDigit = [] then none else _) = _
  rw [show renderItem (p1, p2) = p1 ++ '.' :: ' ' :: p2 from rfl,
    takeWhile_append_all p1 _ hdig (by decide),
    dropWhile_append_all p1 _ hdig (by decide), if_neg hd]
  show (if (' ' :: p2).dropWhile isPySpace = [] ∨
      ((' ' :: p2).dropWhile isPySpace).contains '\n' then none
    else some ((' ' :: p2).dropWhile isPySpace)) = some p2
  rw [List.dropWhile_cons]
  rw [show isPySpace ' ' = true from by decide, if_pos rfl, hlead]
  have hnl' : '\n' ∉ p2 := hnl
  rw [if_neg (by rintro (h | h); exacts [ht h, hnl' (List.elem_iff.mp h)])]

lemma parseStep_length_le {acc : List (List Char)} (line : List Char)
    (h : acc.length ≤ MAX_SKILLS) : (parseStep acc line).length ≤ MAX_SKILLS := by
  unfold parseStep
  cases matchNumbered line with
  | none => exact h
  | some g =>
    show (if acc.length < MAX_SKILLS then acc ++ [g] else acc).length ≤ MAX_SKILLS
    by_cases hlt : acc.length < MAX_SKILLS
    · rw [if_pos hlt]
      simp only [List.length_append, List.length_singleton]
      omega
    · rw [if_neg hlt]
      exact h

lemma foldl_parseStep_length_le :
    ∀ (lines : List (List Char)) (acc : List (List Char)),
      acc.length ≤ MAX_SKILLS →
      (List.foldl parseStep acc lines).length ≤ MAX_SKILLS
  | [], _, h => h
  | line :: t, acc, h => by
    rw [List.foldl_cons]
    exact foldl_parseStep_length_le t _ (parseStep_length_le line h)

lemma foldl_parseStep_nomatch :
    ∀ {lines : List (List Char)} (acc : List (List Char)),
      (∀ line ∈ lines, matchNumbered line = none) →
      List.foldl parseStep acc lines = acc := by
  intro lines
  induction lines with
  | nil => intro acc _; rfl
  | cons line t ih =>
    intro acc h
    rw [List.foldl_cons]
    have hstep : parseStep acc line = acc := by
      unfold parseStep
      rw [h line (List.mem_cons_self line t)]
    rw [hstep]
    exact ih acc (fun l hl => h l (List.mem_cons_of_mem _ hl))

/-- Running the parsing loop over rendered well-formed numbered items
appends their texts, truncating once `MAX_SKILLS` entries are held. -/
lemma foldl_parseStep_renderItems :
    ∀ (items : List (List Char × List Char)) (acc : List (List Char)),
      (∀ p ∈ items, goodItem p) → acc.length ≤ MAX_SKILLS →
      List.foldl parseStep acc (items.map renderItem) =
        acc ++ (items.map Prod.snd).take (MAX_SKILLS - acc.length)
  | [], acc, _, _ => by simp
  | q :: t, acc, hgood, hlen => by
    rw [List.map_cons, List.foldl_cons]
    have hq := matchNumbered_renderItem (hgood q (List.mem_cons_self q t))
    by_cases hlt : acc.length < MAX_SKILLS
    · have hstep : parseStep acc (renderItem q) = acc ++ [q.2] := by
        unfold parseStep
        rw [hq]
        show (if acc.length < MAX_SKILLS then acc ++ [q.2] else acc) = acc ++ [q.2]
        rw [if_pos hlt]
      rw [hstep, foldl_parseStep_renderItems t (acc ++ [q.2])
        (fun p hp => hgood p (List.mem_cons_of_mem _ hp))
        (by simp only [List.length_append, List.length_singleton]; omega)]
      have harith : MAX_SKILLS - acc.length =
          (MAX_SKILLS - (acc ++ [q.2]).length) + 1 := by
        simp only [List.length_append, List.length_singleton]
        omega
      rw [List.map_cons, harith, List.take_succ_cons, List.append_assoc,
        List.singleton_append]
    · have hstep : parseStep acc (renderItem q) = acc := by
        unfold parseStep
        rw [hq]
        show (if acc.length < MAX_SKILLS then acc ++ [q.2] else acc) = acc
        rw [if_neg hlt]
      have hacc : MAX_SKILLS - acc.length = 0 := by omega
      rw [hstep, foldl_parseStep_renderItems t acc
        (fun p hp => hgood p (List.mem_cons_of_mem _ hp)) hlen, hacc]
      simp

lemma renderItem_no_newline {p : List Char × List Char} (hp : goodItem p) :
    '\n' ∉ renderItem p := by
  obtain ⟨p1, p2⟩ := p
  obtain ⟨-, hdig, -, hnl, -, -⟩ := hp
  have hnl' : '\n' ∉ p2 := hnl
  intro hmem
  simp only [renderItem, List.mem_append, List.mem_cons] at hmem
  rcases hmem with h | h | h | h
  · exact newline_not_digit (hdig _ h) rfl
  · exact absurd h (by decide)
  · exact absurd h (by decide)
  · exact hnl' h

lemma sanitize_input_eq_nil {jd : List Char} (h : ∀ c ∈ jd, isPySpace c = true) :
    sanitize_input jd = [] := by
  unfold sanitize_input
  by_cases hjd : jd = []
  · rw [if_pos hjd]
  · rw [if_neg hjd]
    unfold pyStrip
    rw [List.dropWhile_eq_nil_iff.mpr h]
    simp

lemma mem_of_mem_splitOn {sep : Char} :
    ∀ {xs l : List Char}, l ∈ xs.splitOn sep → ∀ {c : Char}, c ∈ l → c ∈ xs := by
  intro xs
  induction xs with
  | nil =>
    intro l hl c hc
    rw [List.splitOn, List.splitOnP_nil, List.mem_singleton] at hl
    subst hl
    simp at hc
  | cons x t ih =>
    intro l hl c hc
    rw [List.splitOn, List.splitOnP_cons] at hl
    by_cases hx : (x == sep) = true
    · rw [if_pos hx] at hl
      rcases List.mem_cons.mp hl with rfl | hl'
      · simp at hc
      · exact List.mem_cons_of_mem _ (ih (by rw [List.splitOn]; exact hl') hc)
    · rw [if_neg hx] at hl
      cases hsp : t.splitOnP (· == sep) with
      | nil => exact absurd hsp (List.splitOnP_ne_nil _ t)
      | cons hd tl =>
        rw [hsp, List.modifyHead_cons] at hl
        rcases List.mem_cons.mp hl with rfl | hl'
        · rcases List.mem_cons.mp hc with rfl | hc'
          · exact List.mem_cons_self ..
          · exact List.mem_cons_of_mem _
              (ih (by rw [List.splitOn, hsp]; exact List.mem_cons_self ..) hc')
        · exact List.mem_cons_of_mem _
            (ih (by rw [List.splitOn, hsp]; exact List.mem_cons_of_mem _ hl') hc)

lemma sextetVal_sextetChar : ∀ n < 64, sextetVal (sextetChar n) = some n := by decide

lemma sextetChar_ne_pad : ∀ n < 64, sextetChar n ≠ '=' := by decide

/-- Decoding inverts encoding on byte buffers. -/
theorem b64decode_b64encode :
    ∀ (data : List Nat), (∀ b ∈ data, b < 256) →
      b64decode (b64encode data) = some data
  | [], _ => rfl
  | [a], h => by
    have ha : a < 256 := h a (by simp)
    simp only [b64encode, b64decode,
      sextetVal_sextetChar (a / 4) (by omega),
      sextetVal_sextetChar (a % 4 * 16) (by omega)]
    have e0 : a % 4 * 16 % 16 = 0 := by omega
    simp [e0]
    omega
  | [a, b], h => by
    have ha : a < 256 := h a (by simp)
    have hb : b < 256 := h b (by simp)
    simp only [b64encode, b64decode,
      sextetVal_sextetChar (a / 4) (by omega),
      sextetVal_sextetChar (a % 4 * 16 + b / 16) (by omega),
      sextetVal_sextetChar (b % 16 * 4) (by omega)]
    rw [if_neg (sextetChar_ne_pad (b % 16 * 4) (by omega))]
    have e0 : b % 16 * 4 % 4 = 0 := by omega
    simp [e0]
    omega
  | a :: b :: c :: rest, h => by
    have ha : a < 256 := h a (by simp)
    have hb : b < 256 := h b (by simp)
    have hc : c < 256 := h c (by simp)
    have hrest : ∀ x ∈ rest, x < 256 :=
      fun x hx => h x (by simp [hx])
    simp only [b64encode, b64decode,
      sextetVal_sextetChar (a / 4) (by omega),
      sextetVal_sextetChar (a % 4 * 16 + b / 16) (by omega),
      sextetVal_sextetChar (b % 16 * 4 + c / 64) (by omega),
      sextetVal_sextetChar (c % 64) (by omega)]
    rw [if_neg (sextetChar_ne_pad (b % 16 * 4 + c / 64) (by omega)),
      if_neg (sextetChar_ne_pad (c % 64) (by omega)),
      b64decode_b64encode rest hrest]
    simp
    omega

/-! ### Claim theorems -/

/-- C1: for a model response consisting of (at least) 10 lines of the
form `"<int>. <text>"`, `extract_skills` returns exactly the `<text>`
values in the order the lines appear, truncated to the first 10 even
when more lines match. -/
theorem extract_skills_numbered_list
    (gen : List Char → Option (List Char)) (job_description : List Char)
    (items : List (List Char × List Char))
    (hjd : sanitize_input job_description ≠ [])
    (hgood : ∀ p ∈ items, goodItem p)
    (hlen : MAX_SKILLS ≤ items.length)
    (hgen : gen (extract_skills_prompt (sanitize_input job_description)) =
      some (List.intercalate ['\n'] (items.map renderItem))) :
    (extract_skills gen job_description).1 =
      some ((items.map Prod.snd).take MAX_SKILLS) := by
  have hlines : (List.intercalate ['\n'] (items.map renderItem)).splitOn '\n' =
      items.map renderItem := by
    apply List.splitOn_intercalate
    · intro l hl
      obtain ⟨p, hp, rfl⟩ := List.mem_map.mp hl
      exact renderItem_no_newline (hgood p hp)
    · intro hnil
      rw [List.map_eq_nil_iff] at hnil
      subst hnil
      simp [MAX_SKILLS] at hlen
  have hparse : parseSkills (List.intercalate ['\n'] (items.map renderItem)) =
      (items.map Prod.snd).take MAX_SKILLS := by
    unfold parseSkills
    rw [hlines, foldl_parseStep_renderItems items [] hgood (by simp)]
    simp
  have hne : (items.map Prod.snd).take MAX_SKILLS ≠ [] := by
    intro h0
    have hl := congrArg List.length h0
    rw [List.length_take, List.length_map, min_eq_left hlen] at hl
    exact absurd hl (by decide)
  unfold extract_skills
  rw [if_neg hjd, hgen]
  show ((if parseSkills (List.intercalate ['\n'] (items.map renderItem)) = []
      then none
      else some (parseSkills (List.intercalate ['\n'] (items.map renderItem)))),
    (1 : Nat)).1 = some ((items.map Prod.snd).take MAX_SKILLS)
  rw [hparse, if_neg hne]

/-- C2: a line is accepted as a skill exactly when (after stripping) it
decomposes as a nonempty digit run, a period, optional whitespace and a
nonempty remainder, which is returned verbatim as the skill text; a
line that does not match leaves the accumulated skills unchanged (no
error). -/
theorem matchNumbered_iff_pattern :
    (∀ line skill, matchNumbered line = some skill ↔ numberedPattern line skill) ∧
    (∀ (skills : List (List Char)) (line : List Char),
      matchNumbered line = none → parseStep skills line = skills) := by
  constructor
  · intro line skill
    constructor
    · intro h
      unfold matchNumbered at h
      by_cases h1 : (pyStrip line).takeWhile Char.isDigit = []
      · rw [if_pos h1] at h
        exact absurd h (by simp)
      · rw [if_neg h1] at h
        split at h
        · rename_i rest2 heq
          split at h
          · exact absurd h (by simp)
          · rename_i hcond
            push_neg at hcond
            refine ⟨(pyStrip line).takeWhile Char.isDigit, rest2, h1,
              fun c hc => List.mem_takeWhile_imp hc, ?_, ?_, ?_, ?_⟩
            · rw [← heq, List.takeWhile_append_dropWhile]
            · exact (Option.some.injEq _ _ ▸ h).symm
            · rw [← Option.some.inj h]
              exact hcond.1
            · rw [← Option.some.inj h]
              intro hmem
              exact hcond.2 (List.elem_iff.mpr hmem)
        · exact absurd h (by simp)
    · rintro ⟨ds, rest, hds, hdig, hsplit, hskill, hne, hnl⟩
      unfold matchNumbered
      rw [hsplit, takeWhile_append_all ds _ hdig (by decide),
        dropWhile_append_all ds _ hdig (by decide), if_neg hds]
      show (if rest.dropWhile isPySpace = [] ∨
          (rest.dropWhile isPySpace).contains '\n' then none
        else some (rest.dropWhile isPySpace)) = some skill
      rw [← hskill,
        if_neg (by rintro (h | h); exacts [hne h, hnl (List.elem_iff.mp h)])]
  · intro skills line h
    unfold parseStep
    rw [h]

/-- C3: when no line of the model response matches the numbered
pattern, `extract_skills` returns the failure value (`None`), not a
skill list. -/
theorem extract_skills_no_match_none
    (gen : List Char → Option (List Char)) (job_description response : List Char)
    (hjd : sanitize_input job_description ≠ [])
    (hgen : gen (extract_skills_prompt (sanitize_input job_description)) =
      some response)
    (hnone : ∀ line ∈ response.splitOn '\n', matchNumbered line = none) :
    (extract_skills gen job_description).1 = none := by
  have hparse : parseSkills response = [] := foldl_parseStep_nomatch [] hnone
  unfold extract_skills
  rw [if_neg hjd, hgen]
  show ((if parseSkills response = [] then none
    else some (parseSkills response)), (1 : Nat)).1 = none
  rw [hparse, if_pos rfl]

/-- C4: a job description that is empty, or only whitespace after
trimming, makes `extract_skills` fail immediately with zero calls to
the external generation service. -/
theorem extract_skills_empty_input
    (gen : List Char → Option (List Char)) (job_description : List Char)
    (h : ∀ c ∈ job_description, isPySpace c = true) :
    extract_skills gen job_description = (none, 0) := by
  unfold extract_skills
  rw [if_pos (sanitize_input_eq_nil h)]

/-- C5: `generate_custom_resume` rejects with no external call when any
of its three inputs is empty, and `generate_cover_letter` rejects with
no external call when any of its five inputs is empty. -/
theorem synthesize_missing_input
    (gen : List Char → Option (List Char))
    (resume job_description : List Char) (selected_skills : List (List Char))
    (company_name recipient_name : List Char) :
    ((resume = [] ∨ job_description = [] ∨ selected_skills = []) →
      generate_custom_resume gen resume job_description selected_skills =
        (none, 0)) ∧
    ((resume = [] ∨ job_description = [] ∨ selected_skills = [] ∨
        company_name = [] ∨ recipient_name = []) →
      generate_cover_letter gen resume job_description selected_skills
        company_name recipient_name = (none, 0)) := by
  constructor
  · intro h
    unfold generate_custom_resume
    rw [if_pos h]
  · intro h
    unfold generate_cover_letter
    rw [if_pos h]

/-- C6: the data-URI link produced by `create_download_link` embeds the
base64 encoding of the input buffer as its payload, and decoding that
payload recovers the original bytes exactly. -/
theorem create_download_link_roundtrip
    (file_data : List Nat) (filename : List Char)
    (h : ∀ b ∈ file_data, b < 256) :
    create_download_link file_data filename =
      "<a href=\"data:application/octet-stream;base64,".data
        ++ b64encode file_data
        ++ "\" download=\"".data ++ filename
        ++ "\">Download ".data ++ filename ++ "</a>".data ∧
    b64decode (b64encode file_data) = some file_data :=
  ⟨rfl, b64decode_b64encode file_data h⟩

/-- C7: with the skill list extracted, clicking generate with fewer
than 3 selected skills shows the warning, changes no state and invokes
no synthesis, while 3 or more selected skills proceed to synthesis
(no warning, one synthesizer invocation) — in both tabs. -/
theorem generate_boundary
    (gen : List Char → Option (List Char))
    (resume_text job_description company_name recipient_name : List Char)
    (selected_skills : List (List Char)) (s : SessionState) :
    (selected_skills.length < 3 →
      generateResumeClick gen resume_text job_description selected_skills s =
        (s, true, 0) ∧
      generateCoverLetterClick gen resume_text job_description selected_skills
        company_name recipient_name s = (s, true, 0)) ∧
    (3 ≤ selected_skills.length →
      (generateResumeClick gen resume_text job_description selected_skills s).2 =
        (false, 1) ∧
      (generateCoverLetterClick gen resume_text job_description selected_skills
        company_name recipient_name s).2 = (false, 1)) := by
  constructor
  · intro h
    constructor
    · unfold generateResumeClick
      rw [if_pos h]
    · unfold generateCoverLetterClick
      rw [if_pos h]
  · intro h
    have h' : ¬selected_skills.length < 3 := by omega
    constructor
    · unfold generateResumeClick
      rw [if_neg h']
      cases (generate_custom_resume gen resume_text job_description
        selected_skills).1 <;> rfl
    · unfold generateCoverLetterClick
      rw [if_neg h']
      cases (generate_cover_letter gen resume_text job_description
        selected_skills company_name recipient_name).1 <;> rfl

/-- C8: analyzing a new job description (with both inputs present and a
successful extraction) replaces the stored skill list with the freshly
extracted one regardless of any prior state, resets the generated flag
(pre-selection state), and every subsequently selectable skill comes
from the new list only. -/
theorem analyze_click_resets
    (gen : List Char → Option (List Char))
    (resume_text job_description : List Char)
    (newSkills : List (List Char)) (s : SessionState)
    (hr : resume_text ≠ []) (hjd : job_description ≠ [])
    (hx : (extract_skills gen job_description).1 = some newSkills) :
    (analyzeClick gen resume_text job_description s).skills = newSkills ∧
    (analyzeClick gen resume_text job_description s).resume_generated = false ∧
    ∀ (checks : Nat → Bool) (sk : List Char),
      sk ∈ selectedFrom checks (analyzeClick gen resume_text job_description s).skills →
      sk ∈ newSkills := by
  have hstate : analyzeClick gen resume_text job_description s =
      { s with skills := newSkills, resume_generated := false } := by
    unfold analyzeClick
    rw [if_neg (by rintro (h | h); exacts [hr h, hjd h]), hx]
  refine ⟨by rw [hstate], by rw [hstate], ?_⟩
  intro checks sk hmem
  rw [hstate] at hmem
  unfold selectedFrom at hmem
  obtain ⟨p, hp, rfl⟩ := List.mem_map.mp hmem
  exact List.snd_mem_of_mem_enum (List.mem_of_mem_filter hp)

/-- C9 counterexample: the claim fails on the Nutrition-Planner export,
which performs no replacement — on a meal-plan text containing the euro
sign (outside the single-byte encoding) its strict latin-1 encode
raises instead of producing a byte buffer with a replacement character
substituted. -/
theorem nutrition_export_counterexample :
    nutrition_pdf_encode ("Weekly budget: 40€".data) = none := by decide

/-- C9 (amended to the Resume-Builder exporter): `create_pdf`'s
encoding step is total and lossy-but-safe: it keeps the length, maps
every character that does not fit in one latin-1 byte to `'?'`, keeps
every other character unchanged, and every character in every line
handed to the PDF renderer fits in one byte — so unencodable characters
cannot make this export raise.  (The Nutrition-Planner export lacks the
replacement handler; see the counterexample above.) -/
theorem create_pdf_latin1_safe (text : List Char) :
    (latin1Replace text).length = text.length ∧
    (∀ c ∈ latin1Replace text, c.toNat < 256) ∧
    (∀ i : Nat, 256 ≤ (text.getD i ' ').toNat →
      (latin1Replace text).getD i ' ' = '?') ∧
    (∀ i : Nat, (text.getD i ' ').toNat < 256 →
      (latin1Replace text).getD i ' ' = text.getD i ' ') ∧
    (∀ line ∈ create_pdf_text text, ∀ c ∈ line, c.toNat < 256) := by
  have hmem : ∀ c ∈ latin1Replace text, c.toNat < 256 := by
    intro c hc
    obtain ⟨c', hc', rfl⟩ := List.mem_map.mp hc
    show (if c'.toNat < 256 then c' else '?').toNat < 256
    by_cases h : c'.toNat < 256
    · rw [if_pos h]
      exact h
    · rw [if_neg h]
      decide
  refine ⟨List.length_map text _, hmem, ?_, ?_, ?_⟩
  · intro i h256
    unfold latin1Replace
    rw [List.getD_eq_getElem?_getD, List.getElem?_map]
    cases hcase : text[i]? with
    | none =>
      rw [List.getD_eq_getElem?_getD, hcase] at h256
      exact absurd h256 (by decide)
    | some c =>
      rw [List.getD_eq_getElem?_getD, hcase, Option.getD_some] at h256
      show (if c.toNat < 256 then c else '?') = '?'
      rw [if_neg (by omega)]
  · intro i hlt
    unfold latin1Replace
    rw [List.getD_eq_getElem?_getD, List.getElem?_map]
    cases hcase : text[i]? with
    | none =>
      rw [List.getD_eq_getElem?_getD, hcase]
      rfl
    | some c =>
      rw [List.getD_eq_getElem?_getD, hcase, Option.getD_some] at hlt
      rw [List.getD_eq_getElem?_getD, hcase, Option.getD_some]
      show (if c.toNat < 256 then c else '?') = c
      rw [if_pos hlt]
  · intro line hline c hc
    unfold create_pdf_text at hline
    exact hmem c (mem_of_mem_splitOn hline hc)

/-- C10: whenever `extract_skills` succeeds, the returned skill list is
nonempty and holds at most `MAX_SKILLS` (10) entries. -/
theorem extract_skills_success_bounds
    (gen : List Char → Option (List Char)) (job_description : List Char)
    (skills : List (List Char))
    (h : (extract_skills gen job_description).1 = some skills) :
    skills ≠ [] ∧ skills.length ≤ MAX_SKILLS := by
  unfold extract_skills at h
  split at h
  · exact absurd h (by simp)
  · split at h
    · exact absurd h (by simp)
    · rename_i result heq
      split at h
      · exact absurd h (by simp)
      · rename_i hne
        obtain rfl : parseSkills result = skills := by simpa using h
        exact ⟨hne, foldl_parseStep_length_le _ [] (by simp)⟩

/-! ### Witnesses -/

/-- Concrete instance of the C1 theorem on an eleven-item response. -/
theorem extract_skills_numbered_list_witness :
    sanitize_input ("data engineer role".data) ≠ [] ∧
    (extract_skills
        (fun _ => some (List.intercalate ['\n'] (sampleItems.map renderItem)))
        ("data engineer role".data)).1 =
      some ((sampleItems.map Prod.snd).take MAX_SKILLS) :=
  ⟨by decide,
   extract_skills_numbered_list _ _ sampleItems (by decide) (by decide)
     (by decide) rfl⟩

/-- Concrete instance of the C2 theorem. -/
theorem matchNumbered_iff_pattern_witness :
    (matchNumbered ("1. Python".data) = some ("Python".data) ↔
      numberedPattern ("1. Python".data) ("Python".data)) ∧
    parseStep [] ("- bullet".data) = [] :=
  ⟨matchNumbered_iff_pattern.1 ("1. Python".data) ("Python".data),
   matchNumbered_iff_pattern.2 [] ("- bullet".data) (by decide)⟩

/-- Concrete instance of the C3 theorem. -/
theorem extract_skills_no_match_none_witness :
    (extract_skills (fun _ => some ("Sorry no numbered list here".data))
      ("jd text".data)).1 = none :=
  extract_skills_no_match_none _ ("jd text".data)
    ("Sorry no numbered list here".data) (by decide) rfl (by decide)

/-- Concrete instance of the C4 theorem: a whitespace-only job
description yields the failure with zero service calls even though the
service stands ready to answer. -/
theorem extract_skills_empty_input_witness :
    extract_skills (fun _ => some ("1. X".data)) ("  \t ".data) = (none, 0) :=
  extract_skills_empty_input _ _ (by decide)

/-- Concrete instance of the C5 theorem. -/
theorem synthesize_missing_input_witness :
    generate_custom_resume (fun _ => some ("out".data)) [] ("jd".data)
      ["Python".data, "SQL".data, "AWS".data] = (none, 0) ∧
    generate_cover_letter (fun _ => some ("out".data)) ("resume".data)
      ("jd".data) ["Python".data, "SQL".data, "AWS".data] ("Acme".data) [] =
      (none, 0) :=
  ⟨(synthesize_missing_input (fun _ => some ("out".data)) [] ("jd".data)
      ["Python".data, "SQL".data, "AWS".data] ("Acme".data) ("Sam".data)).1
      (Or.inl rfl),
   (synthesize_missing_input (fun _ => some ("out".data)) ("resume".data)
      ("jd".data) ["Python".data, "SQL".data, "AWS".data] ("Acme".data) []).2
      (Or.inr (Or.inr (Or.inr (Or.inr rfl))))⟩

/-- Concrete instance of the C6 theorem. -/
theorem create_download_link_roundtrip_witness :
    b64decode (b64encode [37, 80, 68, 70, 0, 255, 10]) =
      some [37, 80, 68, 70, 0, 255, 10] :=
  (create_download_link_roundtrip [37, 80, 68, 70, 0, 255, 10]
    ("tailored_resume.pdf".data) (by decide)).2

/-- Concrete instance of the C7 theorem at the 2-versus-3 boundary. -/
theorem generate_boundary_witness :
    generateResumeClick (fun _ => some ("doc".data)) ("resume".data)
      ("jd".data) ["A".data, "B".data] initialState = (initialState, true, 0) ∧
    (generateResumeClick (fun _ => some ("doc".data)) ("resume".data)
      ("jd".data) ["A".data, "B".data, "C".data] initialState).2 = (false, 1) ∧
    generateCoverLetterClick (fun _ => some ("doc".data)) ("resume".data)
      ("jd".data) ["A".data, "B".data] ("Acme".data) ("Sam".data) initialState =
      (initialState, true, 0) ∧
    (generateCoverLetterClick (fun _ => some ("doc".data)) ("resume".data)
      ("jd".data) ["A".data, "B".data, "C".data] ("Acme".data) ("Sam".data)
      initialState).2 = (false, 1) := by
  refine ⟨?_, ?_, ?_, ?_⟩
  · exact ((generate_boundary (fun _ => some ("doc".data)) ("resume".data)
      ("jd".data) ("Acme".data) ("Sam".data) ["A".data, "B".data]
      initialState).1 (by decide)).1
  · exact ((generate_boundary (fun _ => some ("doc".data)) ("resume".data)
      ("jd".data) ("Acme".data) ("Sam".data) ["A".data, "B".data, "C".data]
      initialState).2 (by decide)).1
  · exact ((generate_boundary (fun _ => some ("doc".data)) ("resume".data)
      ("jd".data) ("Acme".data) ("Sam".data) ["A".data, "B".data]
      initialState).1 (by decide)).2
  · exact ((generate_boundary (fun _ => some ("doc".data)) ("resume".data)
      ("jd".data) ("Acme".data) ("Sam".data) ["A".data, "B".data, "C".data]
      initialState).2 (by decide)).2

/-- Concrete instance of the C8 theorem: re-analysis over a state that
still holds earlier results installs only the new skills and drops the
generated flag. -/
theorem analyze_click_resets_witness :
    (analyzeClick (fun _ => some ("1. New\n2. Skills\n3. Here".data))
      ("resume".data) ("new jd".data) priorState).skills =
      ["New".data, "Skills".data, "Here".data] ∧
    (analyzeClick (fun _ => some ("1. New\n2. Skills\n3. Here".data))
      ("resume".data) ("new jd".data) priorState).resume_generated = false :=
  ⟨(analyze_click_resets (fun _ => some ("1. New\n2. Skills\n3. Here".data))
      ("resume".data) ("new jd".data) ["New".data, "Skills".data, "Here".data]
      priorState (by decide) (by decide) (by decide)).1,
   (analyze_click_resets (fun _ => some ("1. New\n2. Skills\n3. Here".data))
      ("resume".data) ("new jd".data) ["New".data, "Skills".data, "Here".data]
      priorState (by decide) (by decide) (by decide)).2.1⟩

/-- Concrete instance of the C9 theorem on a string with a character
outside latin-1. -/
theorem create_pdf_latin1_safe_witness :
    (latin1Replace ("a€b".data)).getD 1 ' ' = '?' ∧
    (latin1Replace ("a€b".data)).getD 0 ' ' = ("a€b".data).getD 0 ' ' :=
  ⟨(create_pdf_latin1_safe ("a€b".data)).2.2.1 1 (by decide),
   (create_pdf_latin1_safe ("a€b".data)).2.2.2.1 0 (by decide)⟩

/-- Concrete instance of the C10 theorem. -/
theorem extract_skills_success_bounds_witness :
    (extract_skills (fun _ => some ("1. Python".data)) ("jd".data)).1 =
      some ["Python".data] ∧
    (["Python".data] ≠ [] ∧ ["Python".data].length ≤ MAX_SKILLS) :=
  ⟨by decide,
   extract_skills_success_bounds (fun _ => some ("1. Python".data))
     ("jd".data) ["Python".data] (by decide)⟩

end GenAIApps
